import Mathlib

/-
Verification of the keyword-generation-and-metrics pipeline of the
Seo-keyword-tool repository (src/app.py), as a shallow embedding in Lean.

The two core functions are embedded from the Python source:

  generate_keywords(seed_keyword)   (src/app.py lines 18-24)
  get_seo_metrics(keyword, api_key) (src/app.py lines 27-55)

together with the orchestration loop of the main section (lines 106-116)
and the caching behaviour of the cache decorators on both functions.

External collaborators are modelled as explicit parameters:
the WordNet lexical database becomes a function from a seed string to a
list of synsets, each synset being the list of its lemma names; the
network stack (requests.get, raise_for_status, response.json) becomes a
function from (keyword, api key) to an outcome that is either a raised
exception carrying its textual description, or a parsed JSON document.
-/

namespace SeoTool

/-- A JSON value, as produced by response.json() in the Python source. -/
inductive Json where
  | null : Json
  | bool (b : Bool) : Json
  | num (n : Int) : Json
  | str (s : String) : Json
  | arr (elems : List Json) : Json
  | obj (fields : List (String × Json)) : Json

/-- Lookup of a key in a JSON object's field list, first match wins
(Python dict keys are unique, so this is exact dict lookup). -/
def dictLookup (fields : List (String × Json)) (key : String) : Option Json :=
  match fields with
  | [] => none
  | (k, v) :: rest => if k = key then some v else dictLookup rest key

/-- Python d.get(key, default): returns the value stored under the key,
or the default when the key is absent.  When the receiver is not a dict
(for example a JSON list, string or number), Python raises AttributeError,
modelled as the error case. -/
def pyGet (j : Json) (key : String) (default : Json) : Except String Json :=
  match j with
  | Json.obj fields => Except.ok ((dictLookup fields key).getD default)
  | _ => Except.error "AttributeError: object has no attribute get"

/-- Outcome of the network phase of get_seo_metrics: either some step of
requests.get, the 10s timeout, response.raise_for_status or
response.json() raised an exception whose textual description (str(e))
is msg, or a JSON document was obtained from a 2xx response. -/
inductive NetOutcome where
  | exc (msg : String) : NetOutcome
  | ok (data : Json) : NetOutcome

/-- The network stack, as a function of the query parameters q and
api_key that get_seo_metrics passes to requests.get. -/
def Net : Type := String → String → NetOutcome

/-- The Python dict returned by get_seo_metrics, with one optional slot
per field the source may or may not put in the dict: the source builds
either a success dict with search_volume and keyword_difficulty and no
error key, or a failure dict with an error key and no metric keys. -/
structure MetricsResult where
  keyword : String
  success : Bool
  search_volume : Option Json
  keyword_difficulty : Option Json
  error : Option String

/-- The metric-extraction statements of get_seo_metrics (src/app.py
lines 41-42), run in order with Python exception propagation:
search_volume is data.get("search_metadata", dict()).get("total_results",
"N/A") and keyword_difficulty is data.get("keyword_difficulty", "N/A");
an AttributeError raised by either .get call aborts the extraction. -/
def extractMetrics (data : Json) : Except String (Json × Json) :=
  match pyGet data "search_metadata" (Json.obj []) with
  | Except.error msg => Except.error msg
  | Except.ok sm =>
    match pyGet sm "total_results" (Json.str "N/A") with
    | Except.error msg => Except.error msg
    | Except.ok sv =>
      match pyGet data "keyword_difficulty" (Json.str "N/A") with
      | Except.error msg => Except.error msg
      | Except.ok kd => Except.ok (sv, kd)

/-- Embedding of get_seo_metrics (src/app.py lines 27-55), for a fixed
network behaviour: on a raised network-phase exception the except-branch
returns the failure dict; otherwise the two metric fields are extracted
by extractMetrics, and any AttributeError raised there is caught by the
same except-branch. -/
def get_seo_metrics (net : Net) (keyword api_key : String) : MetricsResult :=
  match net keyword api_key with
  | NetOutcome.exc msg =>
      { keyword := keyword, success := false,
        search_volume := none, keyword_difficulty := none, error := some msg }
  | NetOutcome.ok data =>
      match extractMetrics data with
      | Except.ok (sv, kd) =>
          { keyword := keyword, success := true,
            search_volume := some sv, keyword_difficulty := some kd, error := none }
      | Except.error msg =>
          { keyword := keyword, success := false,
            search_volume := none, keyword_difficulty := none, error := some msg }

/-- The WordNet lexical database, as the synsets lookup the source uses:
a seed keyword maps to a list of synsets, each given by the list of its
lemma names. -/
def WordNetDb : Type := String → List (List String)

/-- lemma.name().replace(underscore, space) from src/app.py line 23:
every underscore character of the lemma name becomes a literal space. -/
def fixLemmaName (s : String) : String :=
  String.mk (s.data.map (fun c => if c = '_' then ' ' else c))

/-- Embedding of generate_keywords (src/app.py lines 18-24): collect the
normalized name of every lemma of every synset of the seed, then remove
duplicates (list(set(synonyms))). -/
def generate_keywords (db : WordNetDb) (seed_keyword : String) : List String :=
  (((db seed_keyword).flatMap (fun syn => syn.map fixLemmaName))).dedup

/-- Cache key of the metrics cache: the argument pair (keyword, api_key)
of get_seo_metrics. -/
abbrev CacheKey : Type := String × String

/-- One stored entry of the metrics cache: the MetricsResult computed at
insertion, together with the insertion time in seconds. -/
structure CacheEntry where
  insertedAt : Nat
  value : MetricsResult

/-- The ttl argument of the cache decorator on get_seo_metrics
(src/app.py line 26): entries expire 3600 seconds after insertion. -/
def CACHE_TTL : Nat := 3600

/-- Lookup of a (keyword, api_key) pair in the metrics cache. -/
def cacheLookup (entries : List (CacheKey × CacheEntry)) (k : CacheKey) :
    Option CacheEntry :=
  match entries with
  | [] => none
  | (k', e) :: rest => if k' = k then some e else cacheLookup rest k

/-- Semantics of the st.cache_data(ttl=3600) decorator wrapping
get_seo_metrics (src/app.py lines 26-27): a call first consults the
cache under the argument pair; an entry younger than 3600 seconds is
returned unchanged with no network activity; otherwise the body runs,
one network request is issued, and the fresh result is stored under the
pair at the current time.  The third component of the outcome records
whether the body (hence the network request) ran. -/
def cachedGetSeoMetrics (net : Net) (entries : List (CacheKey × CacheEntry))
    (now : Nat) (keyword api_key : String) :
    MetricsResult × List (CacheKey × CacheEntry) × Bool :=
  match cacheLookup entries (keyword, api_key) with
  | some e =>
      if now < e.insertedAt + CACHE_TTL then
        (e.value, entries, false)
      else
        let r := get_seo_metrics net keyword api_key
        (r, ((keyword, api_key), ⟨now, r⟩) :: entries, true)
  | none =>
      let r := get_seo_metrics net keyword api_key
      (r, ((keyword, api_key), ⟨now, r⟩) :: entries, true)

/-- Semantics of the st.cache_data decorator wrapping generate_keywords
(src/app.py line 17): memoization keyed on the seed string with no
expiry; a hit skips the lexical lookup entirely.  The third component
records whether the body (hence the database lookup) ran. -/
def cachedGenerateKeywords (db : WordNetDb)
    (entries : List (String × List String)) (seed_keyword : String) :
    List String × List (String × List String) × Bool :=
  match entries.lookup seed_keyword with
  | some v => (v, entries, false)
  | none =>
      let r := generate_keywords db seed_keyword
      (r, (seed_keyword, r) :: entries, true)

/-- The analysis loop body of the main section (src/app.py lines
106-116): one get_seo_metrics call per keyword of the given list, in
list order, each result appended to the results list.  The second
component is the log of keywords for which a fetch call was issued, in
invocation order. -/
def analyzeLoop (net : Net) (api_key : String) :
    List String → List MetricsResult × List String
  | [] => ([], [])
  | kw :: rest =>
      let m := get_seo_metrics net kw api_key
      let (rs, callLog) := analyzeLoop net api_key rest
      (m :: rs, kw :: callLog)

/-- Orchestration of the main section (src/app.py line 107): the loop
runs over keywords truncated to the first analysis_limit entries. -/
def runAnalysis (net : Net) (api_key : String) (keywords : List String)
    (analysis_limit : Nat) : List MetricsResult × List String :=
  analyzeLoop net api_key (keywords.take analysis_limit)

/-- Concrete fixture: a lexical database holding exactly two senses,
bank_(finance) with member terms bank and depository, and bank_(river)
with member terms bank and riverbank; looking up a term returns every
sense whose member terms include it. -/
def bankSenses : List (String × List String) :=
  [("bank_(finance)", ["bank", "depository"]), ("bank_(river)", ["bank", "riverbank"])]

/-- Lookup over the bankSenses database. -/
def bankDb : WordNetDb := fun seed =>
  (bankSenses.filter (fun sense => seed ∈ sense.2)).map (fun sense => sense.2)

/-- Concrete fixture: a lexical database in which the seed web has one
sense whose lemma names are web_site (with the WordNet underscore
separator) and web. -/
def websiteDb : WordNetDb := fun seed =>
  if seed = "web" then [["web_site", "web"]] else []

/-- Concrete fixture: a lexical database with no entry for any seed. -/
def emptyDb : WordNetDb := fun _ => []

/-- Concrete fixture: a network behaviour in which every request raises,
as a live endpoint answering HTTP 401 does through raise_for_status. -/
def net401 : Net := fun _ _ =>
  NetOutcome.exc "401 Client Error: Unauthorized for url"

/-- Concrete fixture: a network behaviour in which every request raises
a timeout whose textual description mentions the keyword. -/
def netTimeout : Net := fun kw _ =>
  NetOutcome.exc ("HTTPSConnectionPool: Read timed out for " ++ kw)

/-- Concrete fixture: a 2xx response whose JSON body is the object with
the single field search_metadata holding the number 7.  The body parses,
and both total_results and keyword_difficulty are absent from it. -/
def netBadBody : Net := fun _ _ =>
  NetOutcome.ok (Json.obj [("search_metadata", Json.num 7)])

/-- Concrete fixture: a 2xx response whose JSON body holds
search_metadata.total_results = 1000 and no keyword_difficulty field. -/
def netGood : Net := fun _ _ =>
  NetOutcome.ok (Json.obj [("search_metadata", Json.obj [("total_results", Json.num 1000)])])

/-- C1: get_seo_metrics never raises to the caller (it is a total
function of the network behaviour); whenever the network phase raises an
exception — network call, timeout, HTTP status check or JSON parse —
with a (non-empty) textual description, the returned record echoes the
input keyword unchanged, has success false, and carries exactly that
non-empty description as its error string. -/
theorem get_seo_metrics_absorbs_exceptions (net : Net) (keyword api_key msg : String)
    (hnet : net keyword api_key = NetOutcome.exc msg) (hmsg : msg ≠ "") :
    (get_seo_metrics net keyword api_key).keyword = keyword ∧
    (get_seo_metrics net keyword api_key).success = false ∧
    (get_seo_metrics net keyword api_key).error = some msg ∧ msg ≠ "" := by
  refine ⟨?_, ?_, ?_, hmsg⟩ <;> simp [get_seo_metrics, hnet]

/-- Witness for C1, the HTTP 401 scenario: against an endpoint answering
401 for every request, fetching xyzzy123nonexistent with credential
badkey yields a failure record echoing the keyword, with success false
and a non-empty error string. -/
theorem get_seo_metrics_absorbs_exceptions_witness :
    (get_seo_metrics net401 "xyzzy123nonexistent" "badkey").keyword = "xyzzy123nonexistent" ∧
    (get_seo_metrics net401 "xyzzy123nonexistent" "badkey").success = false ∧
    (get_seo_metrics net401 "xyzzy123nonexistent" "badkey").error =
      some "401 Client Error: Unauthorized for url" ∧
    "401 Client Error: Unauthorized for url" ≠ "" :=
  get_seo_metrics_absorbs_exceptions net401 "xyzzy123nonexistent" "badkey"
    "401 Client Error: Unauthorized for url" rfl (by decide)

/-- C2: every record returned by get_seo_metrics satisfies the
discriminated-union invariant — when success is true both metric slots
are populated and the error slot is empty, and when success is false the
error slot is populated and both metric slots are empty. -/
theorem get_seo_metrics_discriminated (net : Net) (keyword api_key : String) :
    ((get_seo_metrics net keyword api_key).success = true →
      (get_seo_metrics net keyword api_key).search_volume.isSome = true ∧
      (get_seo_metrics net keyword api_key).keyword_difficulty.isSome = true ∧
      (get_seo_metrics net keyword api_key).error = none) ∧
    ((get_seo_metrics net keyword api_key).success = false →
      (get_seo_metrics net keyword api_key).error.isSome = true ∧
      (get_seo_metrics net keyword api_key).search_volume = none ∧
      (get_seo_metrics net keyword api_key).keyword_difficulty = none) := by
  cases hn : net keyword api_key with
  | exc msg => simp [get_seo_metrics, hn]
  | ok data =>
    cases he : extractMetrics data with
    | ok p => cases p with
      | mk sv kd => simp [get_seo_metrics, hn, he]
    | error msg => simp [get_seo_metrics, hn, he]

/-- C3: against the database holding exactly the two senses
bank_(finance) with members bank and depository and bank_(river) with
members bank and riverbank, generate_keywords applied to the seed bank
returns the set of the 3 variants bank, depository, riverbank, with the
duplicated lemma bank occurring exactly once. -/
theorem generate_keywords_bank_scenario :
    (generate_keywords bankDb "bank").toFinset = {"bank", "depository", "riverbank"} ∧
    (generate_keywords bankDb "bank").length = 3 ∧
    (generate_keywords bankDb "bank").count "bank" = 1 := by
  decide

/-- C7: when the lexical-database lookup for a seed yields zero sense
groups, generate_keywords returns the empty collection — a non-error
value, since the function is total. -/
theorem generate_keywords_empty_lookup (db : WordNetDb) (seed : String)
    (h : db seed = []) : generate_keywords db seed = [] := by
  simp [generate_keywords, h]

/-- Witness for C7: on the database with no entries, the seed zzzz
expands to the empty collection. -/
theorem generate_keywords_empty_lookup_witness :
    emptyDb "zzzz" = [] ∧ generate_keywords emptyDb "zzzz" = [] :=
  ⟨rfl, generate_keywords_empty_lookup emptyDb "zzzz" rfl⟩

/-- Counterexample to C4 as stated: the 2xx, JSON-parseable body of
netBadBody is an object in which both total_results and
keyword_difficulty are absent, yet the result is a failure record
(success false, no N/A metric fields): the value stored under
search_metadata is the number 7, so its .get call raises AttributeError,
which the except-branch turns into a failure record. -/
theorem get_seo_metrics_missing_field_counterexample :
    (get_seo_metrics netBadBody "seo tools" "key").success = false ∧
    (get_seo_metrics netBadBody "seo tools" "key").search_volume = none ∧
    (get_seo_metrics netBadBody "seo tools" "key").keyword_difficulty = none :=
  ⟨rfl, rfl, rfl⟩

/-- C4 amended: on a 2xx JSON-parseable response whose body is an object
and whose search_metadata field, when present, is itself an object,
get_seo_metrics succeeds, reads search_volume from
search_metadata.total_results and keyword_difficulty from the top-level
keyword_difficulty field, and each absent field degrades to the
sentinel string N/A with success still true.  (When the body is not an
object, or search_metadata holds a non-object value, the .get chain
raises AttributeError instead and a failure record is returned.) -/
theorem get_seo_metrics_extraction (net : Net) (keyword api_key : String)
    (fields : List (String × Json))
    (hnet : net keyword api_key = NetOutcome.ok (Json.obj fields))
    (hsm : dictLookup fields "search_metadata" = none ∨
      ∃ f2, dictLookup fields "search_metadata" = some (Json.obj f2)) :
    (get_seo_metrics net keyword api_key).success = true ∧
    (get_seo_metrics net keyword api_key).keyword_difficulty =
      some ((dictLookup fields "keyword_difficulty").getD (Json.str "N/A")) ∧
    (dictLookup fields "keyword_difficulty" = none →
      (get_seo_metrics net keyword api_key).keyword_difficulty = some (Json.str "N/A")) ∧
    (dictLookup fields "search_metadata" = none →
      (get_seo_metrics net keyword api_key).search_volume = some (Json.str "N/A")) ∧
    (∀ f2, dictLookup fields "search_metadata" = some (Json.obj f2) →
      (get_seo_metrics net keyword api_key).search_volume =
        some ((dictLookup f2 "total_results").getD (Json.str "N/A")) ∧
      (dictLookup f2 "total_results" = none →
        (get_seo_metrics net keyword api_key).search_volume = some (Json.str "N/A"))) := by
  rcases hsm with hsm | ⟨f2, hsm⟩
  · have hx : extractMetrics (Json.obj fields) =
        Except.ok (Json.str "N/A",
          (dictLookup fields "keyword_difficulty").getD (Json.str "N/A")) := by
      simp [extractMetrics, pyGet, hsm, dictLookup]
    refine ⟨?_, ?_, ?_, ?_, ?_⟩
    · simp [get_seo_metrics, hnet, hx]
    · simp [get_seo_metrics, hnet, hx]
    · intro h
      simp [get_seo_metrics, hnet, hx, h]
    · intro _
      simp [get_seo_metrics, hnet, hx]
    · intro f2 hf2
      rw [hsm] at hf2
      cases hf2
  · have hx : extractMetrics (Json.obj fields) =
        Except.ok ((dictLookup f2 "total_results").getD (Json.str "N/A"),
          (dictLookup fields "keyword_difficulty").getD (Json.str "N/A")) := by
      simp [extractMetrics, pyGet, hsm]
    refine ⟨?_, ?_, ?_, ?_, ?_⟩
    · simp [get_seo_metrics, hnet, hx]
    · simp [get_seo_metrics, hnet, hx]
    · intro h
      simp [get_seo_metrics, hnet, hx, h]
    · intro h
      rw [h] at hsm
      cases hsm
    · intro f2' hf2'
      rw [hsm] at hf2'
      injection hf2' with hh
      injection hh with hh2
      subst hh2
      constructor
      · simp [get_seo_metrics, hnet, hx]
      · intro h
        simp [get_seo_metrics, hnet, hx, h]

/-- Witness for the amended C4: against netGood, whose body holds
search_metadata.total_results = 1000 and no keyword_difficulty field,
fetching succeeds, search_volume is the number 1000, and the absent
keyword_difficulty degrades to the sentinel N/A. -/
theorem get_seo_metrics_extraction_witness :
    netGood "seo tools" "key" =
      NetOutcome.ok (Json.obj
        [("search_metadata", Json.obj [("total_results", Json.num 1000)])]) ∧
    (get_seo_metrics netGood "seo tools" "key").success = true ∧
    (get_seo_metrics netGood "seo tools" "key").search_volume = some (Json.num 1000) ∧
    (get_seo_metrics netGood "seo tools" "key").keyword_difficulty = some (Json.str "N/A") := by
  have h := get_seo_metrics_extraction netGood "seo tools" "key"
    [("search_metadata", Json.obj [("total_results", Json.num 1000)])]
    rfl (Or.inr ⟨[("total_results", Json.num 1000)], rfl⟩)
  refine ⟨rfl, h.1, ?_, h.2.2.1 rfl⟩
  have hv := (h.2.2.2.2 [("total_results", Json.num 1000)] rfl).1
  simpa [dictLookup] using hv

/-- C5: for any network behaviour (failure records included) and any
(keyword, credential) pair not yet cached, a first call at time t1
computes and stores a record; a second call within the 3600-second
window returns the bit-identical stored record and the bit-identical
cache with no network request; and a call at or after expiry runs the
body again, issuing a new network request. -/
theorem cachedGetSeoMetrics_coherence (net : Net)
    (entries : List (CacheKey × CacheEntry)) (t1 t2 t3 : Nat)
    (keyword api_key : String)
    (hfresh : cacheLookup entries (keyword, api_key) = none)
    (h12 : t1 ≤ t2) (hwin : t2 < t1 + 3600) (hexp : t1 + 3600 ≤ t3) :
    cachedGetSeoMetrics net (cachedGetSeoMetrics net entries t1 keyword api_key).2.1
        t2 keyword api_key =
      ((cachedGetSeoMetrics net entries t1 keyword api_key).1,
       (cachedGetSeoMetrics net entries t1 keyword api_key).2.1, false) ∧
    (cachedGetSeoMetrics net (cachedGetSeoMetrics net entries t1 keyword api_key).2.1
        t3 keyword api_key).2.2 = true := by
  have h1 : cachedGetSeoMetrics net entries t1 keyword api_key =
      (get_seo_metrics net keyword api_key,
       ((keyword, api_key),
        ⟨t1, get_seo_metrics net keyword api_key⟩) :: entries, true) := by
    simp [cachedGetSeoMetrics, hfresh]
  rw [h1]
  constructor
  · simp [cachedGetSeoMetrics, cacheLookup, CACHE_TTL, hwin]
  · simp [cachedGetSeoMetrics, cacheLookup, CACHE_TTL, Nat.not_lt.mpr hexp]

/-- Witness for C5: with every request timing out (so the stored record
is a failure record), a first call on the empty cache at time 0, a
second at 3599 and a third at 3600 exercise both halves of the claim. -/
theorem cachedGetSeoMetrics_coherence_witness :
    cacheLookup [] ("seo", "key") = none ∧ (0 : Nat) ≤ 3599 ∧
    3599 < 0 + 3600 ∧ 0 + 3600 ≤ 3600 ∧
    (cachedGetSeoMetrics netTimeout
        (cachedGetSeoMetrics netTimeout [] 0 "seo" "key").2.1 3599 "seo" "key" =
      ((cachedGetSeoMetrics netTimeout [] 0 "seo" "key").1,
       (cachedGetSeoMetrics netTimeout [] 0 "seo" "key").2.1, false) ∧
     (cachedGetSeoMetrics netTimeout
        (cachedGetSeoMetrics netTimeout [] 0 "seo" "key").2.1 3600 "seo" "key").2.2 = true) :=
  ⟨rfl, by decide, by decide, by decide,
   cachedGetSeoMetrics_coherence netTimeout [] 0 3599 3600 "seo" "key" rfl
     (by decide) (by decide) (by decide)⟩

/-- C6: for every database and seed, no variant returned by
generate_keywords contains the underscore separator, and every variant
is some database lemma name with each underscore replaced by a space. -/
theorem generate_keywords_no_separator (db : WordNetDb) (seed v : String)
    (hv : v ∈ generate_keywords db seed) :
    ('_' ∉ v.data) ∧
    ∃ nm, nm ∈ (db seed).flatMap id ∧
      v.data = nm.data.map (fun c => if c = '_' then ' ' else c) := by
  rw [generate_keywords, List.mem_dedup, List.mem_flatMap] at hv
  obtain ⟨syn, hsyn, hvsyn⟩ := hv
  rw [List.mem_map] at hvsyn
  obtain ⟨nm, hnm, hfix⟩ := hvsyn
  subst hfix
  constructor
  · intro hmem
    rw [fixLemmaName] at hmem
    rw [show (String.mk (nm.data.map (fun c => if c = '_' then ' ' else c))).data =
        nm.data.map (fun c => if c = '_' then ' ' else c) from rfl] at hmem
    rw [List.mem_map] at hmem
    obtain ⟨c, _, hc⟩ := hmem
    by_cases h : c = '_'
    · rw [if_pos h] at hc
      cases hc
    · rw [if_neg h] at hc
      exact h hc
  · exact ⟨nm, List.mem_flatMap.mpr ⟨syn, hsyn, hnm⟩, rfl⟩

/-- Witness for C6: in the database whose sense for the seed web has the
lemma names web_site and web, the variant web site is returned and the
theorem applies to it: no underscore remains, and it is the
space-normalization of the stored lemma name web_site. -/
theorem generate_keywords_no_separator_witness :
    "web site" ∈ generate_keywords websiteDb "web" ∧
    (('_' ∉ ("web site" : String).data) ∧
     ∃ nm, nm ∈ (websiteDb "web").flatMap id ∧
       ("web site" : String).data =
         nm.data.map (fun c => if c = '_' then ' ' else c)) :=
  ⟨by decide, generate_keywords_no_separator websiteDb "web" "web site" (by decide)⟩

/-- C8: the analysis loop issues exactly one get_seo_metrics call per
keyword of the first min(N, analysis_limit) elements of the expanded
keyword list, in list order, and the collected results are exactly the
per-keyword fetch results in that same invocation order. -/
theorem runAnalysis_truncation (net : Net) (api_key : String)
    (keywords : List String) (analysis_limit : Nat) :
    (runAnalysis net api_key keywords analysis_limit).2 =
      keywords.take analysis_limit ∧
    (runAnalysis net api_key keywords analysis_limit).2.length =
      min keywords.length analysis_limit ∧
    (runAnalysis net api_key keywords analysis_limit).1 =
      (keywords.take analysis_limit).map (fun kw => get_seo_metrics net kw api_key) := by
  have hloop : ∀ l : List String, analyzeLoop net api_key l =
      (l.map (fun kw => get_seo_metrics net kw api_key), l) := by
    intro l
    induction l with
    | nil => rfl
    | cons kw rest ih => simp [analyzeLoop, ih]
  refine ⟨?_, ?_, ?_⟩ <;> simp [runAnalysis, hloop, Nat.min_comm]

/-- C9: expansion is deterministic and idempotent through its cache —
after any call to the cached generate_keywords, a second call with the
same seed against the same database returns the identical variant list
without running the lexical lookup again. -/
theorem generate_keywords_idempotent (db : WordNetDb)
    (entries : List (String × List String)) (seed_keyword : String) :
    (cachedGenerateKeywords db
        (cachedGenerateKeywords db entries seed_keyword).2.1 seed_keyword).1 =
      (cachedGenerateKeywords db entries seed_keyword).1 ∧
    (cachedGenerateKeywords db
        (cachedGenerateKeywords db entries seed_keyword).2.1 seed_keyword).2.2 = false := by
  cases h : entries.lookup seed_keyword with
  | some v => simp [cachedGenerateKeywords, h]
  | none => simp [cachedGenerateKeywords, h, List.lookup]

/-- C10: generate_keywords is total over all seed strings — the empty
string included, since the seed is quantified without restriction and no
validation is performed — and, given whatever (possibly empty) sense
list the database lookup yields, returns a duplicate-free collection
holding exactly the normalized lemma names of those senses. -/
theorem generate_keywords_total (db : WordNetDb) (seed_keyword : String) :
    (generate_keywords db seed_keyword).Nodup ∧
    ∀ v, v ∈ generate_keywords db seed_keyword ↔
      v ∈ (db seed_keyword).flatMap (fun syn => syn.map fixLemmaName) :=
  ⟨List.nodup_dedup _, fun _ => List.mem_dedup⟩

end SeoTool
